import Mathlib

/-!
Shallow embedding of the timz-platform authentication core
(backend/timz_app: core/jwt.py, core/security.py, services/auth_service.py,
api/v1/auth.py, core/config.py).

Timestamps are integer seconds since the epoch (the code converts
datetimes with int(dt.timestamp())); durations in minutes and days are
converted to seconds with factors 60 and 86400 (timedelta semantics).
Cryptographic primitives (HMAC-SHA256, JWT HS256 signing) are modelled
as injective tagged encodings: the store treats digests and signatures
as opaque lookup keys, which is the only property the code relies on.
Database tables are modelled as lists of rows in insertion order;
SQLAlchemy .first() on a select becomes List.find?.
-/

namespace Timz

/-- Configuration surface (timz_app/core/config.py, class Settings):
only the fields the auth core reads. Defaults: ACCESS_TTL_MIN = 15,
REFRESH_TTL_DAYS = 30. -/
structure Settings where
  JWT_SECRET : String
  ACCESS_TTL_MIN : Int
  REFRESH_TTL_DAYS : Int
  REFRESH_TOKEN_PEPPER : String
deriving DecidableEq, Repr

/-- Python `x or d` applied to an optional integer, as in
`ttl = ttl_minutes or settings.ACCESS_TTL_MIN`: `None` and `0` are both
falsy and select the default `d`. -/
def orDefault (x : Option Int) (d : Int) : Int :=
  match x with
  | none => d
  | some v => if v = 0 then d else v

/-- JWT payload built by create_access_token (timz_app/core/jwt.py):
sub, roles, iat, exp, typ. `sub` is optional because verify accepts any
well-signed payload and the guard reads it with payload.get("sub"). -/
structure AccessClaims where
  sub : Option String
  roles : List String
  iat : Int
  exp : Int
  typ : String
deriving DecidableEq, Repr

/-- A signed JWT: its payload together with the key it was signed with.
HS256 signing is modelled by recording the key; verification compares it
with the configured secret (signature matches iff the keys agree). -/
structure Jwt where
  claims : AccessClaims
  key : String
deriving DecidableEq, Repr

/-- Failure modes of jwt.decode plus the explicit typ check:
PyJWT raises InvalidSignatureError on a key mismatch,
ExpiredSignatureError when exp <= now, and verify_access_token raises
InvalidTokenError("Wrong token type") when typ is not "access". -/
inductive JwtError where
  | invalidSignature
  | expiredSignature
  | wrongTokenType
deriving DecidableEq, Repr

/-- create_access_token (timz_app/core/jwt.py, lines 64-81):
`ttl = ttl_minutes or settings.ACCESS_TTL_MIN`, `exp = now + ttl minutes`,
payload {sub: str(sub), roles: list(roles), iat, exp, typ: "access"},
signed with settings.JWT_SECRET. -/
def create_access_token (s : Settings) (now : Int) (sub : String)
    (roles : List String) (ttl_minutes : Option Int) : Jwt :=
  let ttl := orDefault ttl_minutes s.ACCESS_TTL_MIN
  { claims :=
      { sub := some sub
        roles := roles
        iat := now
        exp := now + 60 * ttl
        typ := "access" }
    key := s.JWT_SECRET }

/-- verify_access_token (timz_app/core/jwt.py, lines 84-93):
jwt.decode validates the signature first, then the exp claim
(PyJWT: expired iff exp <= now), then the function checks
payload.get("typ") == "access". -/
def verify_access_token (s : Settings) (now : Int) (t : Jwt) :
    Except JwtError AccessClaims :=
  if t.key ≠ s.JWT_SECRET then .error .invalidSignature
  else if t.claims.exp ≤ now then .error .expiredSignature
  else if t.claims.typ ≠ "access" then .error .wrongTokenType
  else .ok t.claims

/-- Modelled from the spec: the RefreshToken ORM row
(timz_app/models/refresh_token.py is imported by the code under src/ but
the module itself is absent from src). Spec section 3, RefreshTokenRecord:
opaque id, owning user id, token_hash (one-way digest of the raw secret),
expiry timestamp, optional revocation timestamp (null = still active),
optional client metadata (user agent, IP). The field names match their
uses in core/jwt.py and services/auth_service.py
(rt.user_id, rt.token_hash, rt.expires_at, rt.revoked_at). -/
structure RefreshToken where
  id : Nat
  user_id : String
  token_hash : String
  user_agent : Option String
  ip : Option String
  expires_at : Int
  revoked_at : Option Int
deriving DecidableEq, Repr

/-- HMAC-SHA256 hex digest, modelled as an injective tagged pairing of
key and message (the code only ever compares digests for equality). -/
def hmacSha256Hex (key msg : String) : String :=
  "hmac-sha256:" ++ toString key.length ++ ":" ++ key ++ msg

/-- _hash_refresh / hash_refresh_token (timz_app/core/jwt.py):
HMAC(pepper, raw) hex digest. -/
def hash_refresh_token (s : Settings) (raw : String) : String :=
  hmacSha256Hex s.REFRESH_TOKEN_PEPPER raw

/-- The refresh-token table: rows in insertion order. -/
abbrev RefreshStore := List RefreshToken

/-- issue_refresh_token (timz_app/core/jwt.py, lines 111-143).
The raw secret (secrets.token_urlsafe(64)) and the database-assigned id
of the new row are oracle inputs. If single_device is set, every row of
the user with revoked_at null gets revoked_at = now in the same
transaction as the insert; then a new row is inserted with
expires_at = now + (ttl_days or REFRESH_TTL_DAYS) days and revoked_at
null. Returns (raw, new row, new table state). -/
def issue_refresh_token (s : Settings) (store : RefreshStore) (now : Int)
    (user_id : String) (ttl_days : Option Int)
    (user_agent ip : Option String) (single_device : Bool)
    (raw : String) (newId : Nat) :
    String × RefreshToken × RefreshStore :=
  let store1 :=
    if single_device then
      store.map (fun r =>
        if r.user_id = user_id ∧ r.revoked_at = none then
          { r with revoked_at := some now }
        else r)
    else store
  let ttl := orDefault ttl_days s.REFRESH_TTL_DAYS
  let rt : RefreshToken :=
    { id := newId
      user_id := user_id
      token_hash := hash_refresh_token s raw
      user_agent := user_agent
      ip := ip
      expires_at := now + 86400 * ttl
      revoked_at := none }
  (raw, rt, store1 ++ [rt])

/-- verify_refresh_token (timz_app/core/jwt.py, lines 146-170):
looks up the row by user_id AND token_hash, then checks
revoked_at is null and expires_at > now.
Raises ValueError("unknown" / "revoked" / "expired"). -/
def verify_refresh_token (s : Settings) (store : RefreshStore) (now : Int)
    (user_id : String) (raw_token : String) :
    Except String RefreshToken :=
  let token_hash := hash_refresh_token s raw_token
  match store.find? (fun r =>
      r.user_id = user_id ∧ r.token_hash = token_hash) with
  | none => .error "unknown"
  | some row =>
    if row.revoked_at ≠ none then .error "revoked"
    else if row.expires_at ≤ now then .error "expired"
    else .ok row

/-- revoke_refresh_token (timz_app/core/jwt.py, lines 173-180):
if the given row is not yet revoked, set revoked_at = now on the row
with its id; otherwise do nothing. -/
def revoke_refresh_token (store : RefreshStore) (row : RefreshToken)
    (now : Int) : RefreshStore :=
  if row.revoked_at = none then
    store.map (fun r =>
      if r.id = row.id then { r with revoked_at := some now } else r)
  else store

/-- revoke_all_user_refresh (timz_app/core/jwt.py, lines 183-190):
UPDATE ... SET revoked_at = now WHERE user_id = u AND revoked_at IS NULL;
returns the rowcount of matched rows. -/
def revoke_all_user_refresh (store : RefreshStore) (user_id : String)
    (now : Int) : RefreshStore × Nat :=
  (store.map (fun r =>
      if r.user_id = user_id ∧ r.revoked_at = none then
        { r with revoked_at := some now }
      else r),
   (store.filter (fun r =>
      r.user_id = user_id ∧ decide (r.revoked_at = none))).length)

/-- The relational state the auth core reads and writes: the users table
(ids only — the guard only tests existence), the roles table (id, name),
the user_roles join table (user_id, role_id), and the refresh-token
table. -/
structure Db where
  users : List String
  roles : List (Nat × String)
  user_roles : List (String × Nat)
  refresh_tokens : RefreshStore
deriving DecidableEq, Repr

/-- Lexicographic comparison on character lists, the order SQL
ORDER BY uses on role names (structural, so that concrete stores
evaluate). -/
def charListLe : List Char → List Char → Bool
  | [], _ => true
  | _ :: _, [] => false
  | a :: as, b :: bs => if a = b then charListLe as bs else decide (a < b)

/-- Lexicographic comparison on strings. -/
def strLe (a b : String) : Bool := charListLe a.data b.data

/-- Insert into a sorted list of strings. -/
def insertSorted (a : String) : List String → List String
  | [] => [a]
  | b :: l => if strLe a b then a :: b :: l else b :: insertSorted a l

/-- Sort a list of strings ascending (insertion sort): the ORDER BY of
_get_user_role_names. -/
def sortStrings (l : List String) : List String := l.foldr insertSorted []

/-- Python str.strip().lower(): drop leading and trailing whitespace,
then lowercase. -/
def pyStripLower (s : String) : String :=
  ⟨(((s.data.dropWhile Char.isWhitespace).reverse.dropWhile
      Char.isWhitespace).reverse).map Char.toLower⟩

/-- The distinct elements of a list in first-occurrence order: a Python
set comprehension, kept as a list (only membership is ever used). -/
def pyDistinct (l : List String) : List String :=
  l.foldl (fun acc r => if r ∈ acc then acc else acc ++ [r]) []

/-- The SQL join `select Role.name join UserRole on UserRole.role_id =
Role.id where UserRole.user_id = user_id` shared by
_get_user_role_names (services/auth_service.py) and
fetch_user_role_names (core/security.py). Role.id is a primary key, so
each join row resolves through find? on the roles table. -/
def user_role_names_join (db : Db) (user_id : String) : List String :=
  (db.user_roles.filter (fun ur => ur.1 = user_id)).filterMap
    (fun ur => (db.roles.find? (fun r => r.1 = ur.2)).map (fun r => r.2))

/-- _get_user_role_names (services/auth_service.py, lines 28-38):
the join, ordered by role name. -/
def get_user_role_names (db : Db) (user_id : String) : List String :=
  sortStrings (user_role_names_join db user_id)

/-- fetch_user_role_names (core/security.py, lines 131-141): the same
join, returned as a Python set — membership is all the guard uses. -/
def fetch_user_role_names (db : Db) (user_id : String) : List String :=
  user_role_names_join db user_id

/-- HTTP-level failure: (status code, detail string), as raised by
fastapi.HTTPException. -/
abbrev HttpErr := Nat × String

/-- Result of a successful refresh_access_token_from_raw:
(access_token, new_refresh_token_or_none, user_id, roles). -/
structure RefreshResult where
  access_token : Jwt
  new_refresh : Option String
  user_id : String
  roles : List String
deriving DecidableEq, Repr

/-- refresh_access_token_from_raw (services/auth_service.py,
lines 86-161). Oracle inputs: the fresh raw secret produced by
create_refresh_token() and the database id of the inserted row, used
only when rotate is true. Returns the result together with the
committed database state: every error is raised before any write, and
the rotate branch stages the revocation (rt.revoked_at = now) and the
insert in the same session and commits them with a single commit. -/
def refresh_access_token_from_raw (s : Settings) (db : Db) (now : Int)
    (raw_refresh_token : String) (rotate : Bool)
    (user_agent ip : Option String) (freshRaw : String) (newId : Nat) :
    Except HttpErr RefreshResult × Db :=
  if raw_refresh_token = "" then
    (.error (401, "missing_refresh_token"), db)
  else
    let token_hash := hash_refresh_token s raw_refresh_token
    match db.refresh_tokens.find? (fun r => r.token_hash = token_hash) with
    | none => (.error (401, "refresh_unknown"), db)
    | some rt =>
      if rt.revoked_at ≠ none then (.error (401, "refresh_revoked"), db)
      else if rt.expires_at ≤ now then (.error (401, "refresh_expired"), db)
      else
        let user_id := rt.user_id
        let roles := get_user_role_names db user_id
        let access := create_access_token s now user_id roles none
        if rotate then
          let new_hash := hash_refresh_token s freshRaw
          let new_expires := now + 86400 * s.REFRESH_TTL_DAYS
          let newRt : RefreshToken :=
            { id := newId
              user_id := user_id
              token_hash := new_hash
              user_agent := user_agent
              ip := ip
              expires_at := new_expires
              revoked_at := none }
          let committed :=
            (db.refresh_tokens.map (fun r =>
              if r.id = rt.id then { r with revoked_at := some now } else r))
            ++ [newRt]
          (.ok { access_token := access
                 new_refresh := some freshRaw
                 user_id := user_id
                 roles := roles },
           { db with refresh_tokens := committed })
        else
          (.ok { access_token := access
                 new_refresh := none
                 user_id := user_id
                 roles := roles },
           db)

/-- get_current_user_db (core/security.py, lines 96-128), from the
verify step on: verify the access JWT (mapping ExpiredSignatureError to
401 access_token_expired and every other InvalidTokenError to 401
access_token_invalid), reject a missing or empty sub claim with 401
access_token_missing_sub, then load the user by id, 401 user_not_found
when absent. Returns the user id. -/
def get_current_user_db (s : Settings) (db : Db) (now : Int) (tok : Jwt) :
    Except HttpErr String :=
  match verify_access_token s now tok with
  | .error .expiredSignature => .error (401, "access_token_expired")
  | .error _ => .error (401, "access_token_invalid")
  | .ok payload =>
    match payload.sub with
    | none => .error (401, "access_token_missing_sub")
    | some user_id =>
      if user_id = "" then .error (401, "access_token_missing_sub")
      else if db.users.contains user_id then .ok user_id
      else .error (401, "user_not_found")

/-- The normalized required-role set of require_roles
(core/security.py, line 149): `{r.strip().lower() for r in required if r}`,
as a deduplicated list. -/
def required_role_set (required : List String) : List String :=
  pyDistinct ((required.filter (fun r => r ≠ "")).map pyStripLower)

/-- require_roles(*required) applied to one request
(core/security.py, lines 144-169): authenticate through
get_current_user_db, fetch the role names from the database (the
per-request cache starts empty on a fresh request), compute the missing
required roles, and fail 403 missing_roles:... when any are missing. -/
def require_roles (required : List String) (s : Settings) (db : Db)
    (now : Int) (tok : Jwt) : Except HttpErr String :=
  match get_current_user_db s db now tok with
  | .error e => .error e
  | .ok user_id =>
    let held := fetch_user_role_names db user_id
    let missing := (required_role_set required).filter
      (fun r => ¬ held.contains r)
    if missing ≠ [] then
      .error (403, "missing_roles:" ++ String.intercalate "," missing)
    else .ok user_id

/-- auth_logout (api/v1/auth.py, lines 69-80): authenticate the access
token, then revoke_all_user_refresh for that user; returns the count. -/
def auth_logout (s : Settings) (db : Db) (now : Int) (tok : Jwt) :
    Except HttpErr Nat × Db :=
  match get_current_user_db s db now tok with
  | .error e => (.error e, db)
  | .ok user_id =>
    let (store, count) := revoke_all_user_refresh db.refresh_tokens user_id now
    (.ok count, { db with refresh_tokens := store })

/-! Concrete fixtures used by witnesses and counterexamples. -/

/-- A settings instance with the config defaults
(ACCESS_TTL_MIN = 15, REFRESH_TTL_DAYS = 30). -/
def settingsDefault : Settings :=
  { JWT_SECRET := "jwt-secret"
    ACCESS_TTL_MIN := 15
    REFRESH_TTL_DAYS := 30
    REFRESH_TOKEN_PEPPER := "pepper" }

/-- A usable refresh-token row for user alice, secret "sec". -/
def aliceRecord : RefreshToken :=
  { id := 0
    user_id := "alice"
    token_hash := hash_refresh_token settingsDefault "sec"
    user_agent := none
    ip := none
    expires_at := 1000000
    revoked_at := none }

/-- An expired but never-revoked refresh-token row for user u. -/
def expiredRecord : RefreshToken :=
  { id := 1
    user_id := "u"
    token_hash := "h1"
    user_agent := none
    ip := none
    expires_at := 5
    revoked_at := none }

/-- An already-revoked refresh-token row for user u. -/
def revokedRecord : RefreshToken :=
  { id := 2
    user_id := "u"
    token_hash := "h2"
    user_agent := none
    ip := none
    expires_at := 1000000
    revoked_at := some 3 }

/-- A database with one user alice holding role client, and one usable
refresh token. -/
def dbAlice : Db :=
  { users := ["alice"]
    roles := [(1, "client"), (2, "pro")]
    user_roles := [("alice", 1)]
    refresh_tokens := [aliceRecord] }

/-- A well-signed, unexpired access token whose payload has no sub
claim. -/
def tokenNoSub : Jwt :=
  { claims :=
      { sub := none, roles := [], iat := 0, exp := 900, typ := "access" }
    key := "jwt-secret" }

/-- A valid access token for alice carrying no role snapshot. -/
def tokenAliceNoRoles : Jwt :=
  { claims :=
      { sub := some "alice", roles := [], iat := 0, exp := 900,
        typ := "access" }
    key := "jwt-secret" }

/-- A valid access token for alice carrying a rich role snapshot. -/
def tokenAliceManyRoles : Jwt :=
  { claims :=
      { sub := some "alice", roles := ["pro", "admin"], iat := 0,
        exp := 900, typ := "access" }
    key := "jwt-secret" }

/-- Record-level preservation of an already-set revocation timestamp:
operations update rows in place (positionally) and append new rows, so
the row at index i of the old table is the row at index i of the new
one. -/
def revokedPreserved (store store2 : RefreshStore) : Prop :=
  ∀ i t, ∀ h : i < store.length, ∀ h2 : i < store2.length,
    store[i].revoked_at = some t → store2[i].revoked_at = some t

/-! Theorems. -/

/-- C3: for every subject, role list and ttl > 0, verifying a token
minted with those inputs succeeds while within the TTL window
(mint time ≤ verify time < mint time + ttl) and returns the same
subject and the same set of role names. -/
theorem access_token_round_trip (s : Settings) (now now2 : Int)
    (sub : String) (roles : List String) (ttl : Int)
    (httl : 0 < ttl) (_hlo : now ≤ now2) (hhi : now2 < now + 60 * ttl) :
    ∃ claims,
      verify_access_token s now2
        (create_access_token s now sub roles (some ttl)) = .ok claims ∧
      claims.sub = some sub ∧ (∀ r, r ∈ claims.roles ↔ r ∈ roles) := by
  have hne : ttl ≠ 0 := by omega
  have hexp : ¬ (now + 60 * ttl ≤ now2) := by omega
  have hv : verify_access_token s now2
      (create_access_token s now sub roles (some ttl)) =
      .ok { sub := some sub, roles := roles, iat := now,
            exp := now + 60 * ttl, typ := "access" } := by
    simp [verify_access_token, create_access_token, orDefault, hne, hexp]
  exact ⟨_, hv, rfl, fun r => Iff.rfl⟩

/-- C3 witness: round trip at concrete inputs. -/
theorem access_token_round_trip_witness :
    ∃ claims,
      verify_access_token settingsDefault 30
        (create_access_token settingsDefault 0 "alice" ["client", "pro"]
          (some 2)) = .ok claims ∧
      claims.sub = some "alice" ∧
      (∀ r, r ∈ claims.roles ↔ r ∈ ["client", "pro"]) :=
  access_token_round_trip settingsDefault 0 30 "alice" ["client", "pro"] 2
    (by decide) (by decide) (by decide)

/-- C4 counterexample: minting with ttl = 0 does not produce a token
that fails verification with ExpiredToken — `ttl_minutes or
ACCESS_TTL_MIN` treats 0 as unset, so the token gets the default
15-minute expiry and verifies successfully at mint time. -/
theorem mint_ttl_zero_verifies :
    verify_access_token settingsDefault 0
      (create_access_token settingsDefault 0 "u" [] (some 0)) =
    .ok { sub := some "u", roles := [], iat := 0, exp := 900,
          typ := "access" } := rfl

/-- C4 amended: minting with ttl < 0 and then verifying at any time at
or after mint time fails with ExpiredToken (the expiry is now + ttl,
and a token is invalid at or after its expiry second); ttl = 0 is
treated as absent by `ttl_minutes or ACCESS_TTL_MIN` and falls back to
the configured default TTL. -/
theorem access_token_negative_ttl_expired (s : Settings) (now now2 : Int)
    (sub : String) (roles : List String) (ttl : Int)
    (httl : ttl < 0) (hnow : now ≤ now2) :
    verify_access_token s now2
      (create_access_token s now sub roles (some ttl)) =
      .error .expiredSignature ∧
    create_access_token s now sub roles (some 0) =
      create_access_token s now sub roles none := by
  constructor
  · have hne : ttl ≠ 0 := by omega
    have hexp : now + 60 * ttl ≤ now2 := by omega
    simp [verify_access_token, create_access_token, orDefault, hne, hexp]
  · simp [create_access_token, orDefault]

/-- C4 amended witness: ttl = -1 at concrete inputs. -/
theorem access_token_negative_ttl_expired_witness :
    verify_access_token settingsDefault 0
      (create_access_token settingsDefault 0 "u" [] (some (-1))) =
      .error .expiredSignature ∧
    create_access_token settingsDefault 0 "u" [] (some 0) =
      create_access_token settingsDefault 0 "u" [] none :=
  access_token_negative_ttl_expired settingsDefault 0 0 "u" [] (-1)
    (by decide) (by decide)

/-- C9 counterexample: create_access_token does not deduplicate the
role list — minting with roles ["a", "a"] embeds "a" twice in the
roles claim. -/
theorem mint_keeps_duplicate_roles :
    ((create_access_token settingsDefault 0 "u" ["a", "a"]
        none).claims.roles.count "a") = 2 := by
  decide

/-- C9 amended: the roles claim of a minted access token is exactly the
role sequence passed in, order and duplicates included (the code embeds
list(roles) verbatim). -/
theorem mint_embeds_roles_verbatim (s : Settings) (now : Int)
    (sub : String) (roles : List String) (ttl : Option Int) :
    (create_access_token s now sub roles ttl).claims.roles = roles := rfl

/-- C10: if a presented access token passes signature, expiry and
type-tag verification but its sub claim is absent or empty, the guard
rejects the request with 401 access_token_missing_sub, for every
database state — so before and independent of any user lookup, and the
request is never authorized. -/
theorem guard_rejects_missing_sub (s : Settings) (db : Db) (now : Int)
    (tok : Jwt) (claims : AccessClaims)
    (hok : verify_access_token s now tok = .ok claims)
    (hsub : claims.sub = none ∨ claims.sub = some "") :
    get_current_user_db s db now tok =
      .error (401, "access_token_missing_sub") := by
  unfold get_current_user_db
  rw [hok]
  rcases hsub with h | h <;> simp [h]

/-- C10 witness: a well-signed unexpired access token without a sub
claim is rejected with 401 access_token_missing_sub. -/
theorem guard_rejects_missing_sub_witness :
    get_current_user_db settingsDefault dbAlice 0 tokenNoSub =
      .error (401, "access_token_missing_sub") :=
  guard_rejects_missing_sub settingsDefault dbAlice 0 tokenNoSub
    tokenNoSub.claims rfl (Or.inl rfl)

/-- C7 counterexample: revoke_all_user_refresh does not restrict itself
to currently-usable records — at now = 10 it stamps revoked_at on an
expired (expires_at = 5) never-revoked record of the user and counts
it, instead of leaving it unchanged and returning 0. -/
theorem revoke_all_touches_expired_record :
    revoke_all_user_refresh [expiredRecord] "u" 10 ≠ ([expiredRecord], 0) ∧
    revoke_all_user_refresh [expiredRecord] "u" 10 =
      ([{ expiredRecord with revoked_at := some 10 }], 1) := by
  constructor
  · decide
  · rfl

/-- C7 amended: revoke_all_user_refresh sets revoked_at = now on
exactly the user's records with revoked_at null — regardless of expiry,
so expired-but-unrevoked records are stamped and counted too — leaves
every other record (other users, already revoked) unchanged, and
returns the number of records so stamped (0 is a possible outcome). -/
theorem revoke_all_user_refresh_spec (store : RefreshStore)
    (uid : String) (now : Int) :
    (revoke_all_user_refresh store uid now).1.length = store.length ∧
    (∀ i, ∀ h : i < store.length,
      ∀ h2 : i < (revoke_all_user_refresh store uid now).1.length,
      (store[i].user_id = uid ∧ store[i].revoked_at = none →
        (revoke_all_user_refresh store uid now).1[i] =
          { store[i] with revoked_at := some now }) ∧
      (¬ (store[i].user_id = uid ∧ store[i].revoked_at = none) →
        (revoke_all_user_refresh store uid now).1[i] = store[i])) ∧
    (revoke_all_user_refresh store uid now).2 =
      store.countP (fun r =>
        decide (r.user_id = uid ∧ r.revoked_at = none)) := by
  refine ⟨by simp [revoke_all_user_refresh], fun i h h2 => ⟨?_, ?_⟩, ?_⟩
  · intro hc
    simp only [revoke_all_user_refresh, List.getElem_map]
    rw [if_pos hc]
  · intro hc
    simp only [revoke_all_user_refresh, List.getElem_map]
    rw [if_neg hc]
  · simp [revoke_all_user_refresh, List.countP_eq_length_filter]

/-- C7 amended witness: a store holding an expired unrevoked record, a
revoked record and another user's record; only the first is stamped,
and the count is 1. -/
theorem revoke_all_user_refresh_spec_witness :
    ((revoke_all_user_refresh [expiredRecord, revokedRecord, aliceRecord]
        "u" 10).1.get ⟨0, by decide⟩ =
      { expiredRecord with revoked_at := some 10 }) ∧
    ((revoke_all_user_refresh [expiredRecord, revokedRecord, aliceRecord]
        "u" 10).1.get ⟨2, by decide⟩ = aliceRecord) ∧
    (revoke_all_user_refresh [expiredRecord, revokedRecord, aliceRecord]
        "u" 10).2 = 1 := by
  refine ⟨?_, ?_, ?_⟩
  · exact ((revoke_all_user_refresh_spec
      [expiredRecord, revokedRecord, aliceRecord] "u" 10).2.1 0 (by decide)
      (by decide)).1 (by decide)
  · exact ((revoke_all_user_refresh_spec
      [expiredRecord, revokedRecord, aliceRecord] "u" 10).2.1 2 (by decide)
      (by decide)).2 (by decide)
  · exact (revoke_all_user_refresh_spec
      [expiredRecord, revokedRecord, aliceRecord] "u" 10).2.2.trans
      (by decide)

/-- C6 counterexample: the store-level verify_refresh_token is
user-scoped — presenting the raw secret of the stored record for alice
is not enough: with user id bob the lookup fails with "unknown", while
with user id alice it succeeds on the very same store and secret. -/
theorem verify_refresh_token_is_user_scoped :
    verify_refresh_token settingsDefault [aliceRecord] 0 "bob" "sec" =
      .error "unknown" ∧
    verify_refresh_token settingsDefault [aliceRecord] 0 "alice" "sec" =
      .ok aliceRecord := ⟨rfl, rfl⟩

/-- C6 amended: the service-layer refresh path identifies the record by
the hash of the presented raw secret alone — it takes no user id at
all, and succeeds on any usable record found by hash, returning that
record's owner; the store-level helper verify_refresh_token, by
contrast, requires a caller-supplied user id and only ever returns a
record belonging to that user. -/
theorem refresh_lookup_by_hash_alone (s : Settings) (db : Db) (now : Int)
    (raw : String) (rotate : Bool) (ua ip : Option String)
    (freshRaw : String) (newId : Nat) (rt : RefreshToken)
    (hraw : raw ≠ "")
    (hfind : db.refresh_tokens.find?
      (fun r => r.token_hash = hash_refresh_token s raw) = some rt)
    (hrev : rt.revoked_at = none) (hexp : now < rt.expires_at) :
    (∃ res,
      (refresh_access_token_from_raw s db now raw rotate ua ip freshRaw
        newId).1 = .ok res ∧ res.user_id = rt.user_id) ∧
    (∀ uid r2, verify_refresh_token s db.refresh_tokens now uid raw =
      .ok r2 → r2.user_id = uid) := by
  constructor
  · have hnex : ¬ rt.expires_at ≤ now := not_le.mpr hexp
    cases rotate <;>
      simp [refresh_access_token_from_raw, hraw, hfind, hrev, hnex]
  · intro uid r2 hv
    unfold verify_refresh_token at hv
    dsimp only [] at hv
    rcases hfind2 : db.refresh_tokens.find? (fun r =>
        r.user_id = uid ∧ r.token_hash = hash_refresh_token s raw)
      with _ | row
    · rw [hfind2] at hv
      cases hv
    · rw [hfind2] at hv
      dsimp only [] at hv
      have hp := List.find?_some hfind2
      simp only [decide_eq_true_eq] at hp
      by_cases h1 : row.revoked_at ≠ none
      · rw [if_pos h1] at hv
        cases hv
      · rw [if_neg h1] at hv
        by_cases h2 : row.expires_at ≤ now
        · rw [if_pos h2] at hv
          cases hv
        · rw [if_neg h2] at hv
          cases hv
          exact hp.1

/-- C6 amended witness: on a store holding the record for alice,
refresh with the raw secret alone succeeds and returns alice, while
the store-level helper only returns records of the supplied user. -/
theorem refresh_lookup_by_hash_alone_witness :
    (∃ res,
      (refresh_access_token_from_raw settingsDefault dbAlice 0 "sec"
        false none none "fresh" 7).1 = .ok res ∧
      res.user_id = aliceRecord.user_id) ∧
    (∀ uid r2, verify_refresh_token settingsDefault dbAlice.refresh_tokens
      0 uid "sec" = .ok r2 → r2.user_id = uid) :=
  refresh_lookup_by_hash_alone settingsDefault dbAlice 0 "sec" false
    none none "fresh" 7 aliceRecord (by decide) rfl rfl (by decide)

/-- C5: the guard's authorization decision depends only on the role
state read from the database at request time, never on the role
snapshot embedded in the token: two valid tokens with the same subject
but arbitrary (different) embedded role lists get the identical
outcome; and for a still-valid token, a database state in which the
user exists and holds every required role authorizes the request — so
a role granted after mint takes effect on the very next guarded
request. -/
theorem guard_reads_live_roles (s : Settings) (db db2 : Db) (now : Int)
    (required : List String) (tok1 tok2 : Jwt) (c1 c2 : AccessClaims)
    (h1 : verify_access_token s now tok1 = .ok c1)
    (h2 : verify_access_token s now tok2 = .ok c2)
    (hsub : c1.sub = c2.sub) :
    require_roles required s db now tok1 =
      require_roles required s db now tok2 ∧
    (∀ uid, c1.sub = some uid → uid ≠ "" →
      db2.users.contains uid = true →
      (∀ r ∈ required_role_set required,
        r ∈ fetch_user_role_names db2 uid) →
      require_roles required s db2 now tok1 = .ok uid) := by
  constructor
  · unfold require_roles get_current_user_db
    rw [h1, h2]
    dsimp only []
    rw [hsub]
  · intro uid hu hne hmem hroles
    unfold require_roles get_current_user_db
    rw [h1]
    dsimp only []
    rw [hu]
    dsimp only []
    rw [if_neg hne, hmem]
    simpa using hroles

/-- C5 witness: a token with an empty role snapshot and a token with a
rich snapshot, both for alice, get the same outcome on the same
database; and with alice holding client, the required role client is
granted. -/
theorem guard_reads_live_roles_witness :
    require_roles ["client"] settingsDefault dbAlice 0 tokenAliceNoRoles =
      require_roles ["client"] settingsDefault dbAlice 0
        tokenAliceManyRoles ∧
    (∀ uid, tokenAliceNoRoles.claims.sub = some uid → uid ≠ "" →
      dbAlice.users.contains uid = true →
      (∀ r ∈ required_role_set ["client"],
        r ∈ fetch_user_role_names dbAlice uid) →
      require_roles ["client"] settingsDefault dbAlice 0
        tokenAliceNoRoles = .ok uid) :=
  guard_reads_live_roles settingsDefault dbAlice dbAlice 0 ["client"]
    tokenAliceNoRoles tokenAliceManyRoles tokenAliceNoRoles.claims
    tokenAliceManyRoles.claims rfl rfl rfl

/-! Helper lemmas shared by the refresh-token theorems. -/

/-- find? commutes with a map that does not change the tested field. -/
theorem find?_map_preserve (p : RefreshToken → Bool)
    (f : RefreshToken → RefreshToken) (hf : ∀ x, p (f x) = p x)
    (l : RefreshStore) : (l.map f).find? p = (l.find? p).map f := by
  induction l with
  | nil => rfl
  | cons a l ih =>
    cases hpa : p a
    · rw [List.map_cons, List.find?_cons_of_neg, List.find?_cons_of_neg]
      · exact ih
      · simp [hpa]
      · simp [hf a, hpa]
    · rw [List.map_cons, List.find?_cons_of_pos, List.find?_cons_of_pos]
      · rfl
      · simp [hpa]
      · simp [hf a, hpa]

/-- The in-place revocation of the rotate branch does not change any
token hash, so hash lookups traverse it transparently. -/
theorem rotate_upd_preserves_hash (rt : RefreshToken) (now : Int)
    (h : String) (x : RefreshToken) :
    (decide ((if x.id = rt.id then { x with revoked_at := some now }
      else x).token_hash = h)) = decide (x.token_hash = h) := by
  by_cases hid : x.id = rt.id <;> simp [hid]

/-- The value of a successful rotating refresh: the access token is
minted from the live roles, the new raw secret is returned, and the
committed table is the old table with the presented row stamped revoked
plus the fresh row appended. -/
theorem refresh_rotate_success_eq (s : Settings) (db : Db) (now : Int)
    (raw : String) (ua ip : Option String) (freshRaw : String)
    (newId : Nat) (rt : RefreshToken)
    (hraw : raw ≠ "")
    (hfind : db.refresh_tokens.find?
      (fun r => r.token_hash = hash_refresh_token s raw) = some rt)
    (hrev : rt.revoked_at = none) (hexp : now < rt.expires_at) :
    refresh_access_token_from_raw s db now raw true ua ip freshRaw
        newId =
      (.ok { access_token := create_access_token s now rt.user_id
               (get_user_role_names db rt.user_id) none
             new_refresh := some freshRaw
             user_id := rt.user_id
             roles := get_user_role_names db rt.user_id },
       { db with refresh_tokens :=
           (db.refresh_tokens.map (fun r =>
             if r.id = rt.id then { r with revoked_at := some now }
             else r)) ++
           [{ id := newId
              user_id := rt.user_id
              token_hash := hash_refresh_token s freshRaw
              user_agent := ua
              ip := ip
              expires_at := now + 86400 * s.REFRESH_TTL_DAYS
              revoked_at := none }] }) := by
  have hnex : ¬ rt.expires_at ≤ now := not_le.mpr hexp
  simp [refresh_access_token_from_raw, hraw, hfind, hrev, hnex]

/-- Case analysis of refresh_access_token_from_raw on the committed
state: either the database is unchanged (any error, or a non-rotating
success) or the call was a successful rotation and the committed state
is exactly the revoke-plus-insert image. -/
theorem refresh_db_shape (s : Settings) (db : Db) (now : Int)
    (raw : String) (rotate : Bool) (ua ip : Option String)
    (freshRaw : String) (newId : Nat) :
    (refresh_access_token_from_raw s db now raw rotate ua ip freshRaw
      newId).2 = db ∨
    ∃ rt, db.refresh_tokens.find?
        (fun r => r.token_hash = hash_refresh_token s raw) = some rt ∧
      rt.revoked_at = none ∧ now < rt.expires_at ∧ rotate = true ∧
      raw ≠ "" ∧
      refresh_access_token_from_raw s db now raw rotate ua ip freshRaw
          newId =
        (.ok { access_token := create_access_token s now rt.user_id
                 (get_user_role_names db rt.user_id) none
               new_refresh := some freshRaw
               user_id := rt.user_id
               roles := get_user_role_names db rt.user_id },
         { db with refresh_tokens :=
             (db.refresh_tokens.map (fun r =>
               if r.id = rt.id then { r with revoked_at := some now }
               else r)) ++
             [{ id := newId
                user_id := rt.user_id
                token_hash := hash_refresh_token s freshRaw
                user_agent := ua
                ip := ip
                expires_at := now + 86400 * s.REFRESH_TTL_DAYS
                revoked_at := none }] }) := by
  by_cases hraw : raw = ""
  · left
    simp [refresh_access_token_from_raw, hraw]
  · rcases hfind : db.refresh_tokens.find?
        (fun r => r.token_hash = hash_refresh_token s raw) with _ | rt
    · left
      simp [refresh_access_token_from_raw, hraw, hfind]
    · rcases hrev : rt.revoked_at with _ | t
      · by_cases hexp : rt.expires_at ≤ now
        · left
          simp [refresh_access_token_from_raw, hraw, hfind, hrev, hexp]
        · cases rotate
          · left
            simp [refresh_access_token_from_raw, hraw, hfind, hrev,
              hexp]
          · right
            exact ⟨rt, hfind, hrev, not_le.mp hexp, rfl, hraw,
              refresh_rotate_success_eq s db now raw ua ip freshRaw
                newId rt hraw hfind hrev (not_le.mp hexp)⟩
      · left
        simp [refresh_access_token_from_raw, hraw, hfind, hrev]

/-- Records of a table with pairwise-distinct ids (the primary key) are
determined by their id. -/
theorem record_eq_of_id_eq (store : RefreshStore)
    (hnodup : (store.map (fun r => r.id)).Nodup) (x y : RefreshToken)
    (hx : x ∈ store) (hy : y ∈ store) (hid : x.id = y.id) : x = y :=
  List.inj_on_of_nodup_map hnodup hx hy hid

/-- revokedPreserved holds for an unchanged table. -/
theorem revokedPreserved_refl (store : RefreshStore) :
    revokedPreserved store store := fun _ _ _ _ h => h

/-- revokedPreserved holds for a pointwise update that keeps every
already-set revocation timestamp. -/
theorem revokedPreserved_map (store : RefreshStore)
    (f : RefreshToken → RefreshToken)
    (hf : ∀ x ∈ store, ∀ t, x.revoked_at = some t →
      (f x).revoked_at = some t) :
    revokedPreserved store (store.map f) := by
  intro i t h h2 hrev
  rw [List.getElem_map]
  exact hf store[i] (List.getElem_mem h) t hrev

/-- revokedPreserved survives appending fresh rows. -/
theorem revokedPreserved_append (store store2 l : RefreshStore)
    (hlen : store.length ≤ store2.length)
    (hp : revokedPreserved store store2) :
    revokedPreserved store (store2 ++ l) := by
  intro i t h h2 hrev
  have hi2 : i < store2.length := lt_of_lt_of_le h hlen
  rw [List.getElem_append_left hi2]
  exact hp i t h hi2 hrev

/-- A refresh call presented with the raw secret of a usable record
(found by hash, not revoked, not expired) succeeds and reports that
record's owner. -/
theorem refresh_ok_of_usable (s : Settings) (db : Db) (now : Int)
    (raw : String) (rotate : Bool) (ua ip : Option String)
    (freshRaw : String) (newId : Nat) (rt : RefreshToken)
    (hraw : raw ≠ "")
    (hfind : db.refresh_tokens.find?
      (fun r => r.token_hash = hash_refresh_token s raw) = some rt)
    (hrev : rt.revoked_at = none) (hexp : now < rt.expires_at) :
    ∃ res, (refresh_access_token_from_raw s db now raw rotate ua ip
      freshRaw newId).1 = .ok res ∧ res.user_id = rt.user_id := by
  have hnex : ¬ rt.expires_at ≤ now := not_le.mpr hexp
  cases rotate <;>
    simp [refresh_access_token_from_raw, hraw, hfind, hrev, hnex]

/-- C1: rotation permanently invalidates the old secret. Starting from
any usable record found by the hash of the presented secret, a rotating
refresh succeeds and returns the fresh secret; on the committed state a
second rotating refresh with the original secret fails with
refresh_revoked, while a refresh presenting the newly returned secret
succeeds. -/
theorem rotation_invalidates_old_secret (s : Settings) (db : Db)
    (now : Int) (raw freshRaw fresh2 fresh3 : String)
    (ua ip ua2 ip2 ua3 ip3 : Option String) (newId id2 id3 : Nat)
    (rt : RefreshToken)
    (hraw : raw ≠ "") (hfraw : freshRaw ≠ "")
    (hfind : db.refresh_tokens.find?
      (fun r => r.token_hash = hash_refresh_token s raw) = some rt)
    (hrev : rt.revoked_at = none) (hexp : now < rt.expires_at)
    (hfresh : ∀ r ∈ db.refresh_tokens,
      r.token_hash ≠ hash_refresh_token s freshRaw)
    (httl : 0 < s.REFRESH_TTL_DAYS) :
    ∃ res db2,
      refresh_access_token_from_raw s db now raw true ua ip freshRaw
        newId = (.ok res, db2) ∧
      res.new_refresh = some freshRaw ∧
      (refresh_access_token_from_raw s db2 now raw true ua2 ip2 fresh2
        id2).1 = .error (401, "refresh_revoked") ∧
      ∃ res2,
        (refresh_access_token_from_raw s db2 now freshRaw false ua3 ip3
          fresh3 id3).1 = .ok res2 ∧
        res2.user_id = rt.user_id := by
  have h1 := refresh_rotate_success_eq s db now raw ua ip freshRaw
    newId rt hraw hfind hrev hexp
  refine ⟨_, _, h1, rfl, ?_, ?_⟩
  · have hmap : (db.refresh_tokens.map (fun r =>
        if r.id = rt.id then { r with revoked_at := some now }
        else r)).find?
          (fun r => r.token_hash = hash_refresh_token s raw) =
        some { rt with revoked_at := some now } := by
      rw [find?_map_preserve _ _ (rotate_upd_preserves_hash rt now _),
        hfind]
      simp
    simp [refresh_access_token_from_raw, hraw, List.find?_append, hmap]
  · have hnone : (db.refresh_tokens.map (fun r =>
        if r.id = rt.id then { r with revoked_at := some now }
        else r)).find?
          (fun r => r.token_hash = hash_refresh_token s freshRaw) =
        none := by
      rw [find?_map_preserve _ _ (rotate_upd_preserves_hash rt now _)]
      have hn : db.refresh_tokens.find?
          (fun r => r.token_hash = hash_refresh_token s freshRaw) =
          none := by
        rw [List.find?_eq_none]
        intro a ha
        simp [hfresh a ha]
      rw [hn]
      rfl
    have hfind2 : ((db.refresh_tokens.map (fun r : RefreshToken =>
        if r.id = rt.id then { r with revoked_at := some now }
        else r)) ++
        ([{ id := newId
            user_id := rt.user_id
            token_hash := hash_refresh_token s freshRaw
            user_agent := ua
            ip := ip
            expires_at := now + 86400 * s.REFRESH_TTL_DAYS
            revoked_at := none }] : RefreshStore)).find?
          (fun r => r.token_hash = hash_refresh_token s freshRaw) =
        some { id := newId
               user_id := rt.user_id
               token_hash := hash_refresh_token s freshRaw
               user_agent := ua
               ip := ip
               expires_at := now + 86400 * s.REFRESH_TTL_DAYS
               revoked_at := none } := by
      rw [List.find?_append, hnone]
      simp
    have hexp2 : now < now + 86400 * s.REFRESH_TTL_DAYS := by omega
    exact refresh_ok_of_usable s _ now freshRaw false ua3 ip3 fresh3
      id3 ⟨newId, rt.user_id, hash_refresh_token s freshRaw, ua, ip,
        now + 86400 * s.REFRESH_TTL_DAYS, none⟩ hfraw hfind2 rfl hexp2

/-- C1 witness: rotating alice's refresh token and then replaying the
old secret fails with refresh_revoked, while the fresh secret still
refreshes. -/
theorem rotation_invalidates_old_secret_witness :
    ∃ res db2,
      refresh_access_token_from_raw settingsDefault dbAlice 0 "sec"
        true none none "fresh" 10 = (.ok res, db2) ∧
      res.new_refresh = some "fresh" ∧
      (refresh_access_token_from_raw settingsDefault db2 0 "sec" true
        none none "f2" 11).1 = .error (401, "refresh_revoked") ∧
      ∃ res2,
        (refresh_access_token_from_raw settingsDefault db2 0 "fresh"
          false none none "f3" 12).1 = .ok res2 ∧
        res2.user_id = aliceRecord.user_id :=
  rotation_invalidates_old_secret settingsDefault dbAlice 0 "sec"
    "fresh" "f2" "f3" none none none none none none 10 11 12
    aliceRecord (by decide) (by decide) rfl rfl (by decide) (by decide)
    (by decide)

/-- C2: rotation is atomic. Every failing refresh leaves the committed
database unchanged, and the only two committed states the operation can
produce are the unchanged one and the one in which the presented record
is revoked and the fresh record is present together — never old-active
with new-active, never old-revoked with no new record. -/
theorem rotation_atomic (s : Settings) (db : Db) (now : Int)
    (raw : String) (rotate : Bool) (ua ip : Option String)
    (freshRaw : String) (newId : Nat) :
    (∀ e, (refresh_access_token_from_raw s db now raw rotate ua ip
        freshRaw newId).1 = .error e →
      (refresh_access_token_from_raw s db now raw rotate ua ip freshRaw
        newId).2 = db) ∧
    ((refresh_access_token_from_raw s db now raw rotate ua ip freshRaw
        newId).2 = db ∨
      ∃ rt res,
        (refresh_access_token_from_raw s db now raw rotate ua ip
          freshRaw newId).1 = .ok res ∧
        rt ∈ db.refresh_tokens ∧
        rt.token_hash = hash_refresh_token s raw ∧
        rt.revoked_at = none ∧
        { rt with revoked_at := some now } ∈
          (refresh_access_token_from_raw s db now raw rotate ua ip
            freshRaw newId).2.refresh_tokens ∧
        ∃ nr ∈ (refresh_access_token_from_raw s db now raw rotate ua ip
            freshRaw newId).2.refresh_tokens,
          nr.token_hash = hash_refresh_token s freshRaw ∧
          nr.user_id = rt.user_id ∧ nr.revoked_at = none) := by
  rcases refresh_db_shape s db now raw rotate ua ip freshRaw newId with
    h | ⟨rt, hfind, hrev, hexp, hrot, hraw, heq⟩
  · exact ⟨fun e _ => h, Or.inl h⟩
  · have hmem : rt ∈ db.refresh_tokens :=
      List.mem_of_find?_eq_some hfind
    have hhash : rt.token_hash = hash_refresh_token s raw := by
      have hp := List.find?_some hfind
      simpa using hp
    constructor
    · intro e he
      rw [heq] at he
      simp at he
    · right
      refine ⟨rt, _, by rw [heq], hmem, hhash, hrev, ?_, ?_⟩
      · rw [heq]
        apply List.mem_append_left
        refine List.mem_map.mpr ⟨rt, hmem, ?_⟩
        simp
      · refine ⟨{ id := newId
                  user_id := rt.user_id
                  token_hash := hash_refresh_token s freshRaw
                  user_agent := ua
                  ip := ip
                  expires_at := now + 86400 * s.REFRESH_TTL_DAYS
                  revoked_at := none }, ?_, rfl, rfl, rfl⟩
        rw [heq]
        exact List.mem_append_right _ (List.mem_singleton_self _)

/-- C2 witness: a failing refresh (empty secret) commits no change. -/
theorem rotation_atomic_witness :
    (refresh_access_token_from_raw settingsDefault dbAlice 0 "" true
      none none "fresh" 9).2 = dbAlice :=
  (rotation_atomic settingsDefault dbAlice 0 "" true none none "fresh"
    9).1 (401, "missing_refresh_token") rfl

/-- C8: no store operation ever clears or changes an already-set
revoked_at: issuing (with or without single_device), revoking a single
record, revoking all of a user, and the refresh/rotate flow all leave
every record whose revoked_at was set with exactly that value.
The hypotheses are the primary-key invariant (distinct record ids) and
that the row handed to revoke_refresh_token is a row of the store, as
in the code, which passes a row loaded from the session. -/
theorem revoked_at_never_cleared (s : Settings) (db : Db)
    (store : RefreshStore) (now : Int) (uid : String) (ttl : Option Int)
    (ua ip : Option String) (sd : Bool) (raw freshRaw : String)
    (nid : Nat) (row : RefreshToken) (rotate : Bool)
    (hnodup : (store.map (fun r => r.id)).Nodup) (hrow : row ∈ store)
    (hnodupDb : (db.refresh_tokens.map (fun r => r.id)).Nodup) :
    revokedPreserved store
      (issue_refresh_token s store now uid ttl ua ip sd raw nid).2.2 ∧
    revokedPreserved store (revoke_refresh_token store row now) ∧
    revokedPreserved store (revoke_all_user_refresh store uid now).1 ∧
    revokedPreserved db.refresh_tokens
      (refresh_access_token_from_raw s db now raw rotate ua ip freshRaw
        nid).2.refresh_tokens := by
  refine ⟨?_, ?_, ?_, ?_⟩
  · unfold issue_refresh_token
    cases sd
    · dsimp only []
      simp only [Bool.false_eq_true, if_false]
      exact revokedPreserved_append store store _ le_rfl
        (revokedPreserved_refl store)
    · dsimp only []
      simp only [if_true]
      refine revokedPreserved_append store _ _ (by simp) ?_
      apply revokedPreserved_map
      intro x _ t hx
      rw [if_neg]
      · exact hx
      · intro hc
        rw [hx] at hc
        exact Option.noConfusion hc.2
  · unfold revoke_refresh_token
    rcases hrv : row.revoked_at with _ | t0
    · rw [if_pos rfl]
      apply revokedPreserved_map
      intro x hxmem t hx
      by_cases hid : x.id = row.id
      · exfalso
        have hxr : x = row := record_eq_of_id_eq store hnodup x row
          hxmem hrow hid
        rw [hxr, hrv] at hx
        exact Option.noConfusion hx
      · rw [if_neg hid]
        exact hx
    · rw [if_neg (by simp [hrv])]
      exact revokedPreserved_refl store
  · apply revokedPreserved_map
    intro x _ t hx
    rw [if_neg]
    · exact hx
    · intro hc
      rw [hx] at hc
      exact Option.noConfusion hc.2
  · rcases refresh_db_shape s db now raw rotate ua ip freshRaw nid with
      h | ⟨rt, hfind, hrev, hexp, hrot, hraw, heq⟩
    · rw [h]
      exact revokedPreserved_refl _
    · rw [heq]
      dsimp only []
      refine revokedPreserved_append _ _ _ (by simp) ?_
      apply revokedPreserved_map
      intro x hxmem t hx
      by_cases hid : x.id = rt.id
      · exfalso
        have hxr : x = rt := record_eq_of_id_eq db.refresh_tokens
          hnodupDb x rt hxmem (List.mem_of_find?_eq_some hfind) hid
        rw [hxr, hrev] at hx
        exact Option.noConfusion hx
      · rw [if_neg hid]
        exact hx

/-- C8 witness: revoking all tokens of user u does not change the
timestamp of an already-revoked record. -/
theorem revoked_at_never_cleared_witness :
    ((revoke_all_user_refresh [revokedRecord] "u" 10).1.get
      ⟨0, by decide⟩).revoked_at = some 3 :=
  (revoked_at_never_cleared settingsDefault dbAlice [revokedRecord] 10
    "u" none none none false "sec" "fresh" 9 revokedRecord true
    (by decide) (by decide) (by decide)).2.2.1 0 3 (by decide)
    (by decide) rfl

end Timz
